import Mathlib

/-!
Verification of the BloodAid backend core: the donor matching algorithm
(`app/ml/matching/donor_matcher.py`), the backup fallback coordinator and
refresh loop (`app/services/backup_service.py`), and the scraped-data
validator (`app/services/data_validator.py`).

The Python code is shallowly embedded:
* Python floats are modelled as rationals (`ℚ`); every numeric literal in the
  matcher is an exact decimal, so no precision is lost.
* `dict.get(key, default)` fields are modelled as structure fields holding the
  post-`get` value; where two call sites use different defaults for the same
  key, the field is an `Option` and each site applies its own `getD`.
* The haversine helper `_calculate_distance` uses `math` trigonometry, which
  has no executable rational counterpart; it is passed in as an explicit
  function parameter `dist` (latitude, longitude, latitude, longitude ↦ km).
  Claims about concrete distances instantiate it with a constant function.
* `datetime` values are modelled by their signed offset from `datetime.now()`
  (`PyDate.daysAgo` / `PyTime.hoursUntil`); strings that fail to parse are
  `unparseable` (the code does `except: pass` around parsing).
* Async functions that either raise or return are modelled as `Except` values.
-/

/-! ### Fallback coordinator: `with_backup_fallback` (backup_service.py 369-391)

`primary` and `backup` are the awaited outcomes of the two async callables:
`Except.ok r` models a normal return of `r`, `Except.error e` models a raised
exception `e`.  `isEmptyResult` models Python falsiness of the result
(`not result or (isinstance(result, list) and len(result) == 0)`).  The
returned `Bool` records whether `backup_func` was invoked. -/

def with_backup_fallback {E R : Type} (isEmptyResult : R → Bool)
    (primary backup : Except E R) : Except E R × Bool :=
  match primary with
  | Except.ok result =>
      -- "If result is empty or None, try backup" (no try/except around this
      -- call: an exception from backup propagates as backup's own outcome).
      if isEmptyResult result then (backup, true)
      else (Except.ok result, false)
  | Except.error e =>
      match backup with
      | Except.ok backup_result => (Except.ok backup_result, true)
      | Except.error _ => (Except.error e, true)  -- "raise e  # original error"

/-! ### Donor matcher data model (donor_matcher.py) -/

/-- A latitude/longitude pair as read from a `location` dict; each key may be
absent (`none`).  Python treats the value `0` as falsy, which matters in
`_calculate_distance_score`. -/
structure GeoPoint where
  latitude : Option ℚ
  longitude : Option ℚ
deriving DecidableEq

/-- A Python datetime-valued dict entry, modelled by its offset from `now`:
`daysAgo n` is a date with `(datetime.now() - d).days == n`; `unparseable` is
a string for which `fromisoformat` raises (the code does `except: pass`). -/
inductive PyDate where
  | missing
  | unparseable
  | daysAgo (n : ℤ)
deriving DecidableEq

/-- A future deadline (`needed_by`), modelled by `hours_until`:
`(needed_date - datetime.now()).total_seconds() / 3600`. -/
inductive PyTime where
  | missing
  | unparseable
  | hoursUntil (h : ℚ)
deriving DecidableEq

/-- A donor dict as consumed by `DonorMatcher`.  Fields hold post-`dict.get`
values with the code's defaults baked in, except `blood_group`, which is kept
optional because two call sites use different defaults
(`.get("blood_group", "O+")` in scoring, plain `.get("blood_group")` in the
rare-type bonus). -/
structure Donor where
  id : String                          -- str(donor.get("id", ""))
  blood_group : Option String
  location : Option GeoPoint           -- .get("location", {}); none = missing/empty dict
  is_active : Bool := true             -- .get("is_active", True)
  last_donation_date : PyDate := PyDate.missing
  pref_emergency_available : Bool := false  -- availability_preferences.get("emergency_available", False)
  pref_flexible_schedule : Bool := true     -- availability_preferences.get("flexible_schedule", True)
  total_donations : ℤ := 0             -- .get("total_donations", 0)
  response_rate : ℚ := 0.8             -- .get("response_rate", 0.8)
  completion_rate : ℚ := 0.9           -- .get("completion_rate", 0.9)
  last_active_date : PyDate := PyDate.missing
  emergency_volunteer : Bool := false  -- .get("emergency_volunteer", False)
  hospital_affiliated : Bool := false  -- .get("hospital_affiliated", False)
deriving DecidableEq

/-- A `patient_requirements` / request dict.  `blood_group` is optional because
scoring uses `.get("blood_group", "O+")` while the rare-type bonus uses
`.get("blood_group", "")`. -/
structure Request where
  id : String                          -- str(request.get("id", ""))
  blood_group : Option String
  location : Option GeoPoint
  units_needed : ℤ := 1                -- .get("units_needed", 1)
  max_distance_km : ℚ := 50            -- .get("max_distance_km", 50)
  needed_by : PyTime := PyTime.missing
  urgency_level : String := "medium"   -- .get("urgency_level", "medium")
deriving DecidableEq

/-- `DonorScore` dataclass: sub-scores and total are stored pre-multiplied by
100 and rounded to two decimals, exactly as in `_calculate_donor_score`. -/
structure DonorScore where
  donor_id : String
  total_score : ℚ
  compatibility_score : ℚ
  distance_score : ℚ
  availability_score : ℚ
  reliability_score : ℚ
  urgency_bonus : ℚ
  factors : List String
deriving DecidableEq

/-- The 8 blood types, in the key order of `self.compatibility_matrix`. -/
def blood_types : List String :=
  ["O-", "O+", "A-", "A+", "B-", "B+", "AB-", "AB+"]

/-- `self.compatibility_matrix.get(donor_blood_group, [])`: the recipient
types a donor of the given type can serve. -/
def compatibility_matrix (donor_blood_group : String) : List String :=
  if donor_blood_group = "O-" then ["O-", "O+", "A-", "A+", "B-", "B+", "AB-", "AB+"]
  else if donor_blood_group = "O+" then ["O+", "A+", "B+", "AB+"]
  else if donor_blood_group = "A-" then ["A-", "A+", "AB-", "AB+"]
  else if donor_blood_group = "A+" then ["A+", "AB+"]
  else if donor_blood_group = "B-" then ["B-", "B+", "AB-", "AB+"]
  else if donor_blood_group = "B+" then ["B+", "AB+"]
  else if donor_blood_group = "AB-" then ["AB-", "AB+"]
  else if donor_blood_group = "AB+" then ["AB+"]
  else []

/-- `self.weights` scoring-weight dict. -/
def weights (k : String) : ℚ :=
  if k = "compatibility" then 0.4
  else if k = "distance" then 0.25
  else if k = "availability" then 0.2
  else if k = "reliability" then 0.1
  else if k = "urgency" then 0.05
  else 0

/-- `_calculate_compatibility_score`.  The empty string stands for Python's
falsy missing blood group (`if not donor_blood_group or not patient_blood_group`). -/
def calculate_compatibility_score (donor_blood_group patient_blood_group : String) : ℚ :=
  if donor_blood_group = "" ∨ patient_blood_group = "" then 0
  else if patient_blood_group ∈ compatibility_matrix donor_blood_group then
    if donor_blood_group = patient_blood_group then 1
    else if donor_blood_group = "O-" then 0.95
    else 0.8
  else 0

/-- Python truthiness of a coordinate read with `.get`: `None` and `0` are
falsy (`if not all([donor_lat, donor_lng, patient_lat, patient_lng])`). -/
def truthyCoord : Option ℚ → Bool
  | some x => decide (x ≠ 0)
  | none => false

/-- The in-radius branch of `_calculate_distance_score`: 0.0 beyond
`max_distance`, otherwise linear decay with floor 0.1. -/
def distance_score_of_distance (distance_km max_distance : ℚ) : ℚ :=
  if max_distance < distance_km then 0
  else max 0.1 (1 - distance_km / max_distance)

/-- `_calculate_distance_score`, with the haversine helper passed in as
`dist`. -/
def calculate_distance_score (dist : ℚ → ℚ → ℚ → ℚ → ℚ)
    (donor_location patient_location : Option GeoPoint) (max_distance : ℚ) : ℚ :=
  match donor_location, patient_location with
  | some dl, some pl =>
      if truthyCoord dl.latitude && truthyCoord dl.longitude &&
          truthyCoord pl.latitude && truthyCoord pl.longitude then
        distance_score_of_distance
          (dist (dl.latitude.getD 0) (dl.longitude.getD 0)
                (pl.latitude.getD 0) (pl.longitude.getD 0))
          max_distance
      else 0.5
  | _, _ => 0.5  -- `if not donor_location or not patient_location: return 0.5`

/-- The tail of `_calculate_availability_score` after the last-donation
eligibility gate: preference and deadline bonuses, capped at 1.0. -/
def availability_after_eligibility (donor : Donor) (needed_by : PyTime) (base : ℚ) : ℚ :=
  let b1 := if donor.pref_emergency_available then base + 0.2 else base
  let b2 := if donor.pref_flexible_schedule then b1 + 0.1 else b1
  let b3 :=
    match needed_by with
    | PyTime.hoursUntil h =>
        if h < 6 then (if donor.pref_emergency_available then b2 + 0.2 else b2)
        else if h < 24 then b2 + 0.1
        else b2
    | _ => b2  -- missing deadline, or `except: pass` on a bad timestamp
  min 1 b3

/-- `_calculate_availability_score`: base 0.5, +0.2 if active, +0.3 if
eligible (84+ days since last donation, or none recorded); an ineligible
donor scores 0.0 outright (early `return 0.0`). -/
def calculate_availability_score (donor : Donor) (needed_by : PyTime) : ℚ :=
  let base := (0.5 : ℚ) + (if donor.is_active then 0.2 else 0)
  match donor.last_donation_date with
  | PyDate.missing => availability_after_eligibility donor needed_by (base + 0.3)
  | PyDate.unparseable => availability_after_eligibility donor needed_by base
  | PyDate.daysAgo n =>
      if 84 ≤ n then availability_after_eligibility donor needed_by (base + 0.3)
      else 0

/-- `_calculate_reliability_score`. -/
def calculate_reliability_score (donor : Donor) : ℚ :=
  let b1 : ℚ :=
    if 10 ≤ donor.total_donations then 0.5 + 0.3
    else if 5 ≤ donor.total_donations then 0.5 + 0.2
    else if 1 ≤ donor.total_donations then 0.5 + 0.1
    else 0.5
  let b2 := b1 + (donor.response_rate - 0.5) * 0.4
  let b3 := b2 + (donor.completion_rate - 0.5) * 0.4
  let b4 :=
    match donor.last_active_date with
    | PyDate.daysAgo n =>
        if n ≤ 30 then b3 + 0.1
        else if n ≤ 90 then b3 + 0.05
        else b3
    | _ => b3
  min 1 b4

/-- `_calculate_urgency_bonus`. -/
def calculate_urgency_bonus (donor : Donor) (urgency_level : String) (req : Request) : ℚ :=
  if urgency_level = "low" then 0
  else
    let b1 : ℚ :=
      if donor.emergency_volunteer then
        if urgency_level = "critical" then 0.8
        else if urgency_level = "high" then 0.6
        else if urgency_level = "medium" then 0.3
        else 0
      else 0
    let bg := req.blood_group.getD ""  -- patient_requirements.get("blood_group", "")
    let b2 := if bg ∈ (["AB-", "B-", "A-"] : List String) ∧ donor.blood_group = some bg
      then b1 + 0.5 else b1
    let b3 := if donor.hospital_affiliated then b2 + 0.2 else b2
    min 1 b3

/-- Python `round(x, 2)`, modelled with the mathematical half-up rounding
`round`; every value rounded in the claims is exact at two decimals, so the
half-to-even difference of CPython floats never shows. -/
def round2 (x : ℚ) : ℚ := ((round (x * 100) : ℤ) : ℚ) / 100

/-- `_calculate_donor_score`: the five sub-scores, the human-readable factor
list, and the weighted total, packed into a `DonorScore` with every stored
value multiplied by 100 and rounded to two decimals. -/
def calculate_donor_score (dist : ℚ → ℚ → ℚ → ℚ → ℚ)
    (donor : Donor) (patient_requirements : Request) (urgency_level : String) : DonorScore :=
  let compatibility_score := calculate_compatibility_score
    (donor.blood_group.getD "O+") (patient_requirements.blood_group.getD "O+")
  let factors1 : List String :=
    if 0 < compatibility_score then ["Blood type compatible"] else []
  let distance_score := calculate_distance_score dist donor.location
    patient_requirements.location patient_requirements.max_distance_km
  let factors2 := factors1 ++
    (if 0.8 < distance_score then ["Very close proximity"]
     else if 0.5 < distance_score then ["Nearby location"] else [])
  let availability_score := calculate_availability_score donor patient_requirements.needed_by
  let factors3 := factors2 ++
    (if 0.8 < availability_score then ["Immediately available"]
     else if 0.5 < availability_score then ["Available soon"] else [])
  let reliability_score := calculate_reliability_score donor
  let factors4 := factors3 ++
    (if 0.8 < reliability_score then ["Highly reliable donor"]
     else if 0.6 < reliability_score then ["Regular donor"] else [])
  let urgency_bonus := calculate_urgency_bonus donor urgency_level patient_requirements
  let factors5 := factors4 ++ (if 0 < urgency_bonus then ["Emergency responder"] else [])
  let total_score :=
    (compatibility_score * weights "compatibility" +
     distance_score * weights "distance" +
     availability_score * weights "availability" +
     reliability_score * weights "reliability" +
     urgency_bonus * weights "urgency") * 100
  { donor_id := donor.id
    total_score := round2 total_score
    compatibility_score := round2 (compatibility_score * 100)
    distance_score := round2 (distance_score * 100)
    availability_score := round2 (availability_score * 100)
    reliability_score := round2 (reliability_score * 100)
    urgency_bonus := round2 (urgency_bonus * 100)
    factors := factors5 }

/-- Comparison used to model `compatible_donors.sort(key=lambda x:
x.total_score, reverse=True)`: Python's sort is stable, and with
`reverse=True` equal keys keep their input order, which is exactly
`List.mergeSort` with this relation. -/
def scoreLE (a b : DonorScore) : Bool := decide (b.total_score ≤ a.total_score)

/-- `find_compatible_donors`.  As in the source, the `max_distance_km`
parameter is accepted but never used: scoring reads
`patient_requirements.get("max_distance_km", 50)` instead. -/
def find_compatible_donors (dist : ℚ → ℚ → ℚ → ℚ → ℚ)
    (patient_requirements : Request) (available_donors : List Donor)
    (max_distance_km : ℚ) (urgency_level : String) : List DonorScore :=
  let compatible_donors :=
    (available_donors.map
      (fun donor => calculate_donor_score dist donor patient_requirements urgency_level)).filter
      (fun score => decide (0 < score.compatibility_score) && decide (0 < score.distance_score))
  compatible_donors.mergeSort scoreLE

/-- `_get_urgency_priority`: `priorities.get(urgency_level, 2)`. -/
def get_urgency_priority (urgency_level : String) : ℕ :=
  if urgency_level = "critical" then 4
  else if urgency_level = "high" then 3
  else if urgency_level = "medium" then 2
  else if urgency_level = "low" then 1
  else 2

/-- Comparison modelling `sorted(requests, key=lambda x:
self._get_urgency_priority(...), reverse=True)` (stable descending). -/
def reqLE (a b : Request) : Bool :=
  decide (get_urgency_priority b.urgency_level ≤ get_urgency_priority a.urgency_level)

/-- The `sorted_requests` list of `batch_match_requests`. -/
def sorted_requests (requests : List Request) : List Request :=
  requests.mergeSort reqLE

/-- `top_donors_needed = min(request.get("units_needed", 1), len(matches))`;
a negative `units_needed` makes `range(...)` empty, hence `Int.toNat`. -/
def reserve_count (r : Request) (match_list : List DonorScore) : ℕ :=
  (min r.units_needed (match_list.length : ℤ)).toNat

/-- Reserved donor ids of one processed request: the ids of its top
`reserve_count` matches (`used_donors.add(matches[i].donor_id)`). -/
def reserved_ids (p : Request × List DonorScore) : List String :=
  (p.2.take (reserve_count p.1 p.2)).map DonorScore.donor_id

/-- The loop body of `batch_match_requests`: processes the (already sorted)
requests in order, threading the `used_donors` set (modelled as a list with
membership), and records each request with its match list. -/
def batch_trace (dist : ℚ → ℚ → ℚ → ℚ → ℚ) (available_donors : List Donor) :
    List Request → List String → List (Request × List DonorScore)
  | [], _ => []
  | request :: rest, used_donors =>
      let available_for_request :=
        available_donors.filter (fun donor => decide (donor.id ∉ used_donors))
      let match_list := find_compatible_donors dist request available_for_request
        50 request.urgency_level
      (request, match_list) ::
        batch_trace dist available_donors rest
          (used_donors ++ reserved_ids (request, match_list))

/-- `batch_match_requests`: the result dict, keyed by `str(request.get("id",
""))`, modelled as an association list in processing order. -/
def batch_match_requests (dist : ℚ → ℚ → ℚ → ℚ → ℚ)
    (requests : List Request) (available_donors : List Donor) :
    List (String × List DonorScore) :=
  (batch_trace dist available_donors (sorted_requests requests) []).map
    (fun p => (p.1.id, p.2))

/-! ### Rounding helper lemmas -/

/-- `round2` fixes any rational that is exact at two decimals. -/
theorem round2_eq_self (x : ℚ) (n : ℤ) (h : x * 100 = (n : ℚ)) : round2 x = x := by
  have hx : x = (n : ℚ) / 100 := by
    field_simp
    linarith [h]
  rw [round2, h, round_intCast, hx]

theorem round2_mono {x y : ℚ} (h : x ≤ y) : round2 x ≤ round2 y := by
  rw [round2, round2]
  have : round (x * 100) ≤ round (y * 100) := by
    rw [round_eq, round_eq]
    exact Int.floor_le_floor (by linarith)
  have h2 : ((round (x * 100) : ℤ) : ℚ) ≤ ((round (y * 100) : ℤ) : ℚ) := by
    exact_mod_cast this
  linarith

theorem round2_zero : round2 0 = 0 := by
  rw [round2_eq_self 0 0 (by norm_num)]

theorem round2_hundred : round2 100 = 100 := by
  rw [round2_eq_self 100 10000 (by norm_num)]

/-! ### Claim C1 -/

/-- Claim C1: for every pair of operations, `with_backup_fallback` (i) returns
a non-empty primary result unchanged without invoking backup; (ii) returns
backup's result when primary raises and backup succeeds; (iii) re-raises
primary's original exception when both raise; (iv) invokes backup and returns
its outcome when primary's result is empty/falsy. -/
theorem with_backup_fallback_spec {E R : Type} (isEmptyResult : R → Bool)
    (primary backup : Except E R) :
    (∀ r : R, primary = Except.ok r → isEmptyResult r = false →
      with_backup_fallback isEmptyResult primary backup = (Except.ok r, false)) ∧
    (∀ (e : E) (r : R), primary = Except.error e → backup = Except.ok r →
      with_backup_fallback isEmptyResult primary backup = (Except.ok r, true)) ∧
    (∀ e e2 : E, primary = Except.error e → backup = Except.error e2 →
      with_backup_fallback isEmptyResult primary backup = (Except.error e, true)) ∧
    (∀ r : R, primary = Except.ok r → isEmptyResult r = true →
      with_backup_fallback isEmptyResult primary backup = (backup, true)) := by
  refine ⟨?_, ?_, ?_, ?_⟩
  · intro r hp he
    subst hp
    simp [with_backup_fallback, he]
  · intro e r hp hb
    subst hp; subst hb
    simp [with_backup_fallback]
  · intro e e2 hp hb
    subst hp; subst hb
    simp [with_backup_fallback]
  · intro r hp he
    subst hp
    simp [with_backup_fallback, he]

/-- Witness for C1 at concrete inputs: a raising primary with a succeeding
backup, and a raising primary with a raising backup. -/
theorem with_backup_fallback_spec_witness :
    with_backup_fallback (fun l => l.isEmpty)
      (Except.error "down" : Except String (List ℕ)) (Except.ok [7]) = (Except.ok [7], true) ∧
    with_backup_fallback (fun l => l.isEmpty)
      (Except.error "down" : Except String (List ℕ)) (Except.error "also down") =
      (Except.error "down", true) :=
  ⟨(with_backup_fallback_spec (fun l => l.isEmpty) (Except.error "down")
      (Except.ok [7])).2.1 "down" [7] rfl rfl,
   (with_backup_fallback_spec (fun l => l.isEmpty) (Except.error "down")
      (Except.error "also down")).2.2.1 "down" "also down" rfl rfl⟩

/-! ### Claim C4 -/

/-- Claim C4: every blood type is among its own compatible recipients; `O-`
serves all 8 types (the full, duplicate-free list of blood types); `AB+`
serves exactly itself. -/
theorem compatibility_matrix_self_universal :
    (∀ t, t ∈ blood_types → t ∈ compatibility_matrix t) ∧
    compatibility_matrix "O-" = blood_types ∧
    blood_types.length = 8 ∧ blood_types.Nodup ∧
    compatibility_matrix "AB+" = ["AB+"] := by
  refine ⟨?_, rfl, rfl, by decide, rfl⟩
  intro t ht
  fin_cases ht <;> decide

/-- Witness for C4: self-compatibility instantiated at `A+`. -/
theorem compatibility_matrix_self_universal_witness :
    "A+" ∈ blood_types ∧ "A+" ∈ compatibility_matrix "A+" :=
  ⟨by decide, compatibility_matrix_self_universal.1 "A+" (by decide)⟩

/-! ### Field projections of `calculate_donor_score` -/

@[simp] theorem calculate_donor_score_donor_id (dist : ℚ → ℚ → ℚ → ℚ → ℚ)
    (donor : Donor) (req : Request) (u : String) :
    (calculate_donor_score dist donor req u).donor_id = donor.id := rfl

@[simp] theorem calculate_donor_score_compatibility (dist : ℚ → ℚ → ℚ → ℚ → ℚ)
    (donor : Donor) (req : Request) (u : String) :
    (calculate_donor_score dist donor req u).compatibility_score =
      round2 (calculate_compatibility_score (donor.blood_group.getD "O+")
        (req.blood_group.getD "O+") * 100) := rfl

@[simp] theorem calculate_donor_score_distance (dist : ℚ → ℚ → ℚ → ℚ → ℚ)
    (donor : Donor) (req : Request) (u : String) :
    (calculate_donor_score dist donor req u).distance_score =
      round2 (calculate_distance_score dist donor.location req.location
        req.max_distance_km * 100) := rfl

@[simp] theorem calculate_donor_score_availability (dist : ℚ → ℚ → ℚ → ℚ → ℚ)
    (donor : Donor) (req : Request) (u : String) :
    (calculate_donor_score dist donor req u).availability_score =
      round2 (calculate_availability_score donor req.needed_by * 100) := rfl

@[simp] theorem calculate_donor_score_reliability (dist : ℚ → ℚ → ℚ → ℚ → ℚ)
    (donor : Donor) (req : Request) (u : String) :
    (calculate_donor_score dist donor req u).reliability_score =
      round2 (calculate_reliability_score donor * 100) := rfl

@[simp] theorem calculate_donor_score_urgency (dist : ℚ → ℚ → ℚ → ℚ → ℚ)
    (donor : Donor) (req : Request) (u : String) :
    (calculate_donor_score dist donor req u).urgency_bonus =
      round2 (calculate_urgency_bonus donor u req * 100) := rfl

@[simp] theorem calculate_donor_score_total (dist : ℚ → ℚ → ℚ → ℚ → ℚ)
    (donor : Donor) (req : Request) (u : String) :
    (calculate_donor_score dist donor req u).total_score =
      round2 ((calculate_compatibility_score (donor.blood_group.getD "O+")
          (req.blood_group.getD "O+") * weights "compatibility" +
        calculate_distance_score dist donor.location req.location
          req.max_distance_km * weights "distance" +
        calculate_availability_score donor req.needed_by * weights "availability" +
        calculate_reliability_score donor * weights "reliability" +
        calculate_urgency_bonus donor u req * weights "urgency") * 100) := rfl

/-! ### Claim C6 -/

/-- Claim C6: with all four coordinates present (and nonzero, per the code's
truthiness gate) the distance sub-score is exactly the linear-decay formula
with floor 0.1 in radius and 0.0 beyond the radius, it is monotonically
non-increasing in the computed distance for fixed positive `max_distance_km`,
and a wholly absent location yields the 0.5 default. -/
theorem distance_score_monotone_spec (dist : ℚ → ℚ → ℚ → ℚ → ℚ)
    (dl pl : GeoPoint) (max_distance : ℚ) (hmd : 0 < max_distance)
    (h1 : truthyCoord dl.latitude = true) (h2 : truthyCoord dl.longitude = true)
    (h3 : truthyCoord pl.latitude = true) (h4 : truthyCoord pl.longitude = true) :
    calculate_distance_score dist (some dl) (some pl) max_distance =
      distance_score_of_distance
        (dist (dl.latitude.getD 0) (dl.longitude.getD 0)
              (pl.latitude.getD 0) (pl.longitude.getD 0)) max_distance ∧
    (∀ d : ℚ, d ≤ max_distance →
      distance_score_of_distance d max_distance = max 0.1 (1 - d / max_distance)) ∧
    (∀ d : ℚ, max_distance < d → distance_score_of_distance d max_distance = 0) ∧
    (∀ d1 d2 : ℚ, d1 ≤ d2 →
      distance_score_of_distance d2 max_distance ≤ distance_score_of_distance d1 max_distance) ∧
    (∀ md2 : ℚ, calculate_distance_score dist none none md2 = 0.5) := by
  refine ⟨?_, ?_, ?_, ?_, fun md2 => rfl⟩
  · simp [calculate_distance_score, h1, h2, h3, h4]
  · intro d hd
    rw [distance_score_of_distance, if_neg (not_lt.mpr hd)]
  · intro d hd
    rw [distance_score_of_distance, if_pos hd]
  · intro d1 d2 h12
    unfold distance_score_of_distance
    split_ifs with ha hb hb
    · exact le_refl 0
    · exact le_trans (by norm_num) (le_max_left 0.1 (1 - d1 / max_distance))
    · exact absurd (lt_of_lt_of_le hb (le_trans h12 (not_lt.mp ha))) (lt_irrefl max_distance)
    · refine max_le_max (le_refl 0.1) ?_
      have hdiv : d1 / max_distance ≤ d2 / max_distance :=
        (div_le_div_right hmd).mpr h12
      linarith

/-- Witness data for C6: a constant 3 km haversine stand-in and a nonzero
coordinate pair. -/
def dist_three : ℚ → ℚ → ℚ → ℚ → ℚ := fun _ _ _ _ => 3

/-- Witness geo point with nonzero coordinates. -/
def geo_one : GeoPoint := { latitude := some 1, longitude := some 1 }

/-- Witness for C6 at `max_distance_km = 10`, computed distance 3 km. -/
theorem distance_score_monotone_spec_witness :
    calculate_distance_score dist_three (some geo_one) (some geo_one) 10 =
      distance_score_of_distance 3 10 ∧
    distance_score_of_distance (5 : ℚ) 10 ≤ distance_score_of_distance 3 10 := by
  have h := distance_score_monotone_spec dist_three geo_one geo_one 10 (by norm_num)
    (by norm_num [geo_one, truthyCoord]) (by norm_num [geo_one, truthyCoord])
    (by norm_num [geo_one, truthyCoord]) (by norm_num [geo_one, truthyCoord])
  exact ⟨h.1, h.2.2.2.1 3 5 (by norm_num)⟩

/-! ### Claim C9 -/

/-- A coordinate read with `.get` that is missing or zero, phrased through
`getD 0`. -/
theorem truthyCoord_eq_false_iff (c : Option ℚ) : truthyCoord c = false ↔ c.getD 0 = 0 := by
  cases c <;> simp [truthyCoord]

/-- Claim C9: if any of the four coordinates is 0 or missing, the distance
sub-score is the 0.5 missing-location default, the distance function is never
consulted (the score is the same for every `dist`), and such a donor is never
excluded for exceeding `max_distance_km` (its stored distance score is 50,
which passes the `distance_score > 0` gate of `find_compatible_donors`). -/
theorem zero_or_missing_coordinate_defaults (dist : ℚ → ℚ → ℚ → ℚ → ℚ)
    (donor : Donor) (req : Request) (u : String)
    (h : donor.location = none ∨ req.location = none ∨
      ∃ dl pl : GeoPoint, donor.location = some dl ∧ req.location = some pl ∧
        (dl.latitude.getD 0 = 0 ∨ dl.longitude.getD 0 = 0 ∨
         pl.latitude.getD 0 = 0 ∨ pl.longitude.getD 0 = 0)) :
    calculate_distance_score dist donor.location req.location req.max_distance_km = 0.5 ∧
    (calculate_donor_score dist donor req u).distance_score = 50 ∧
    (0 : ℚ) < (calculate_donor_score dist donor req u).distance_score := by
  have hds : calculate_distance_score dist donor.location req.location req.max_distance_km
      = 0.5 := by
    rcases h with h | h | ⟨dl, pl, hdl, hpl, hz⟩
    · rw [h]; rfl
    · rw [h]; cases donor.location <;> rfl
    · rw [hdl, hpl]
      have hfalse : (truthyCoord dl.latitude && truthyCoord dl.longitude &&
          truthyCoord pl.latitude && truthyCoord pl.longitude) = false := by
        rcases hz with hz | hz | hz | hz <;>
          simp [(truthyCoord_eq_false_iff _).mpr hz]
      simp [calculate_distance_score, hfalse]
  have hstored : (calculate_donor_score dist donor req u).distance_score = 50 := by
    rw [calculate_donor_score_distance, hds]
    rw [show (0.5 * 100 : ℚ) = 50 by norm_num, round2_eq_self 50 5000 (by norm_num)]
  exact ⟨hds, hstored, by rw [hstored]; norm_num⟩

/-- Witness inputs for C9: a donor sitting exactly on the equator
(latitude 0) and a haversine stand-in reporting an enormous distance. -/
def dist_huge : ℚ → ℚ → ℚ → ℚ → ℚ := fun _ _ _ _ => 40000

/-- Witness donor on the equator. -/
def donor_equator : Donor :=
  { id := "d9", blood_group := some "O+", location := some ⟨some 0, some 77⟩ }

/-- Witness request near the donor, with a 10 km radius. -/
def req_nine : Request :=
  { id := "r9", blood_group := some "O+", location := some ⟨some 13, some 77⟩,
    max_distance_km := 10 }

/-- Witness for C9: despite a 40000 km reported distance and a 10 km radius,
the equator donor keeps the 0.5 default and passes the distance gate. -/
theorem zero_or_missing_coordinate_defaults_witness :
    calculate_distance_score dist_huge donor_equator.location req_nine.location
      req_nine.max_distance_km = 0.5 ∧
    (calculate_donor_score dist_huge donor_equator req_nine "medium").distance_score = 50 ∧
    (0 : ℚ) < (calculate_donor_score dist_huge donor_equator req_nine "medium").distance_score :=
  zero_or_missing_coordinate_defaults dist_huge donor_equator req_nine "medium"
    (Or.inr (Or.inr ⟨⟨some 0, some 77⟩, ⟨some 13, some 77⟩, rfl, rfl, Or.inl rfl⟩))

/-! ### Claim C5 -/

/-- A pair absent from the compatibility table scores 0. -/
theorem calculate_compatibility_score_eq_zero {dbg pbg : String}
    (h : pbg ∉ compatibility_matrix dbg) : calculate_compatibility_score dbg pbg = 0 := by
  unfold calculate_compatibility_score
  rw [if_neg h]
  exact ite_self 0

/-- Anatomy of membership in `find_compatible_donors` output: every returned
score passed both gates of the filter and is the score of some pool donor. -/
theorem mem_find_compatible_donors {dist : ℚ → ℚ → ℚ → ℚ → ℚ}
    {req : Request} {pool : List Donor} {md : ℚ} {u : String} {s : DonorScore}
    (hs : s ∈ find_compatible_donors dist req pool md u) :
    0 < s.compatibility_score ∧ 0 < s.distance_score ∧
      ∃ d ∈ pool, s = calculate_donor_score dist d req u := by
  unfold find_compatible_donors at hs
  have hs2 := (List.mergeSort_perm _ scoreLE).subset hs
  have hs3 := List.mem_filter.mp hs2
  obtain ⟨d, hd, hds⟩ := List.mem_map.mp hs3.1
  have hb := hs3.2
  rw [Bool.and_eq_true, decide_eq_true_eq, decide_eq_true_eq] at hb
  exact ⟨hb.1, hb.2, d, hd, hds.symm⟩

/-- Claim C5 (amended direction): a donor whose blood group cannot serve the
request's blood group — the request's group is absent from the table row of
the donor's group — gets compatibility sub-score exactly 0 and its score
never appears in `find_compatible_donors` output, for any pool. -/
theorem incompatible_donor_scored_zero_and_excluded (dist : ℚ → ℚ → ℚ → ℚ → ℚ)
    (donor : Donor) (req : Request) (u : String)
    (h : req.blood_group.getD "O+" ∉ compatibility_matrix (donor.blood_group.getD "O+")) :
    (calculate_donor_score dist donor req u).compatibility_score = 0 ∧
    ∀ (pool : List Donor) (md : ℚ),
      calculate_donor_score dist donor req u ∉ find_compatible_donors dist req pool md u := by
  have hc : (calculate_donor_score dist donor req u).compatibility_score = 0 := by
    rw [calculate_donor_score_compatibility, calculate_compatibility_score_eq_zero h]
    rw [show ((0 : ℚ) * 100) = 0 by norm_num, round2_zero]
  refine ⟨hc, ?_⟩
  intro pool md hmem
  have := (mem_find_compatible_donors hmem).1
  rw [hc] at this
  exact lt_irrefl 0 this

/-- Witness donor for C5: blood group B- against an O- request
(`"O-" ∉ compatibility_matrix "B-"`). -/
def donor_bneg : Donor := { id := "d5", blood_group := some "B-", location := none }

/-- Witness request for C5: needs O-. -/
def req_oneg : Request := { id := "r5", blood_group := some "O-", location := none }

/-- Witness for C5 at a concrete incompatible pair and singleton pool. -/
theorem incompatible_donor_scored_zero_and_excluded_witness :
    (calculate_donor_score dist_three donor_bneg req_oneg "medium").compatibility_score = 0 ∧
    calculate_donor_score dist_three donor_bneg req_oneg "medium" ∉
      find_compatible_donors dist_three req_oneg [donor_bneg] 50 "medium" := by
  have h := incompatible_donor_scored_zero_and_excluded dist_three donor_bneg req_oneg
    "medium" (by simp [donor_bneg, req_oneg, compatibility_matrix])
  exact ⟨h.1, h.2 [donor_bneg] 50⟩

/-- Counterexample donor for the literal reading of C5: an O+ donor. -/
def donor_oplus : Donor := { id := "d-op", blood_group := some "O+", location := none }

/-- Counterexample request for the literal reading of C5: needs A+. -/
def req_aplus : Request := { id := "r-ap", blood_group := some "A+", location := none }

/-- Counterexample to C5 as literally stated: the donor's blood group O+ is
NOT in the table's recipient set for the request's blood group A+
(`compatible_recipients("A+") = ["A+", "AB+"]`), yet the scorer gives this
donor compatibility sub-score 80 (0.8), not 0, and the donor appears in
`find_compatible_donors` output — the code checks membership of the
request's group in the donor's row, not the other way round. -/
theorem c5_literal_counterexample :
    "O+" ∉ compatibility_matrix "A+" ∧
    (calculate_donor_score dist_three donor_oplus req_aplus "medium").compatibility_score = 80 ∧
    calculate_donor_score dist_three donor_oplus req_aplus "medium" ∈
      find_compatible_donors dist_three req_aplus [donor_oplus] 50 "medium" := by
  have hcomp : (calculate_donor_score dist_three donor_oplus req_aplus
      "medium").compatibility_score = 80 := by
    rw [calculate_donor_score_compatibility]
    rw [show donor_oplus.blood_group.getD "O+" = "O+" from rfl,
      show req_aplus.blood_group.getD "O+" = "A+" from rfl,
      show calculate_compatibility_score "O+" "A+" = 0.8 from rfl]
    rw [show ((0.8 : ℚ) * 100) = 80 by norm_num, round2_eq_self 80 8000 (by norm_num)]
  have hdist : (calculate_donor_score dist_three donor_oplus req_aplus
      "medium").distance_score = 50 := by
    rw [calculate_donor_score_distance]
    rw [show calculate_distance_score dist_three donor_oplus.location req_aplus.location
      req_aplus.max_distance_km = 0.5 from rfl]
    rw [show ((0.5 : ℚ) * 100) = 50 by norm_num, round2_eq_self 50 5000 (by norm_num)]
  refine ⟨by decide, hcomp, ?_⟩
  unfold find_compatible_donors
  have hfil : ((([donor_oplus].map
      (fun donor => calculate_donor_score dist_three donor req_aplus "medium"))).filter
      (fun score => decide (0 < score.compatibility_score) &&
        decide (0 < score.distance_score))) =
      [calculate_donor_score dist_three donor_oplus req_aplus "medium"] := by
    rw [List.map_singleton, List.filter_singleton]
    have hcond : (decide (0 < (calculate_donor_score dist_three donor_oplus req_aplus
        "medium").compatibility_score) &&
        decide (0 < (calculate_donor_score dist_three donor_oplus req_aplus
          "medium").distance_score)) = true := by
      rw [Bool.and_eq_true, decide_eq_true_eq, decide_eq_true_eq, hcomp, hdist]
      norm_num
    rw [hcond]
    rfl
  rw [hfil]
  have := List.mergeSort_perm
    [calculate_donor_score dist_three donor_oplus req_aplus "medium"] scoreLE
  exact this.symm.subset (List.mem_singleton.mpr rfl)

/-! ### Claim C2 -/

/-- Haversine stand-in for the C2 scenario: the spec fixes the computed
distance at 2 km. -/
def dist_two : ℚ → ℚ → ℚ → ℚ → ℚ := fun _ _ _ _ => 2

/-- The C2 scenario donor: O-, emergency volunteer, 5 donations, last
donation 100 days ago, all other fields at the code's defaults. -/
def scenario_donor : Donor :=
  { id := "d42", blood_group := some "O-", location := some ⟨some 13, some 77⟩,
    last_donation_date := PyDate.daysAgo 100, total_donations := 5,
    emergency_volunteer := true }

/-- The C2 scenario request: needs O-, max_distance 10 km, critical urgency. -/
def scenario_request : Request :=
  { id := "r42", blood_group := some "O-", location := some ⟨some 14, some 78⟩,
    max_distance_km := 10, urgency_level := "critical" }

/-- The C2 scenario score. -/
def scenario_score : DonorScore :=
  calculate_donor_score dist_two scenario_donor scenario_request "critical"

/-- Raw compatibility in the scenario: the exact-match branch fires first. -/
theorem scenario_compatibility_raw : calculate_compatibility_score "O-" "O-" = 1 := rfl

/-- Raw distance sub-score in the scenario: 2 km against a 10 km radius. -/
theorem scenario_distance_raw :
    calculate_distance_score dist_two scenario_donor.location scenario_request.location
      scenario_request.max_distance_km = 0.8 := by
  show calculate_distance_score dist_two (some ⟨some 13, some 77⟩) (some ⟨some 14, some 78⟩)
    10 = 0.8
  rw [calculate_distance_score]
  rw [if_pos (by norm_num [truthyCoord])]
  rw [distance_score_of_distance, dist_two]
  rw [if_neg (by norm_num)]
  rw [max_eq_right (by norm_num : (0.1 : ℚ) ≤ 1 - 2 / 10)]
  norm_num

/-- Raw availability in the scenario: active, eligible (100 ≥ 84 days) and
flexible, capped at 1. -/
theorem scenario_availability_raw :
    calculate_availability_score scenario_donor scenario_request.needed_by = 1 := by
  show min 1 ((0.5 : ℚ) + 0.2 + 0.3 + 0.1) = 1
  rw [min_eq_left (by norm_num)]

/-- Raw reliability in the scenario: 5 donations, default response and
completion rates. -/
theorem scenario_reliability_raw : calculate_reliability_score scenario_donor = 0.98 := by
  show min 1 ((0.5 : ℚ) + 0.2 + (0.8 - 0.5) * 0.4 + (0.9 - 0.5) * 0.4) = 0.98
  rw [min_eq_right (by norm_num)]
  norm_num

/-- Raw urgency bonus in the scenario: critical urgency, emergency
volunteer, no rare-type or hospital bonus. -/
theorem scenario_urgency_raw :
    calculate_urgency_bonus scenario_donor "critical" scenario_request = 0.8 := by
  show min 1 (0.8 : ℚ) = 0.8
  rw [min_eq_right (by norm_num)]

/-- Counterexample to C2 as stated: in the exact O- → O- scenario the
compatibility sub-score is 1.0 (stored 100), not 0.95, because the
exact-match branch precedes the universal-donor branch; the total score is
93.8, which is outside the claimed 75-90 range. -/
theorem c2_counterexample :
    calculate_compatibility_score "O-" "O-" = 1 ∧
    scenario_score.compatibility_score ≠ 95 ∧
    scenario_score.total_score = 93.8 ∧
    ¬ (75 ≤ scenario_score.total_score ∧ scenario_score.total_score ≤ 90) := by
  have hcomp : scenario_score.compatibility_score = 100 := by
    rw [scenario_score, calculate_donor_score_compatibility]
    rw [show scenario_donor.blood_group.getD "O+" = "O-" from rfl,
      show scenario_request.blood_group.getD "O+" = "O-" from rfl,
      scenario_compatibility_raw]
    rw [show ((1 : ℚ) * 100) = 100 by norm_num, round2_hundred]
  have htotal : scenario_score.total_score = 93.8 := by
    rw [scenario_score, calculate_donor_score_total]
    rw [show scenario_donor.blood_group.getD "O+" = "O-" from rfl,
      show scenario_request.blood_group.getD "O+" = "O-" from rfl,
      scenario_compatibility_raw, scenario_distance_raw,
      scenario_availability_raw, scenario_reliability_raw, scenario_urgency_raw]
    rw [show weights "compatibility" = 0.4 from rfl, show weights "distance" = 0.25 from rfl,
      show weights "availability" = 0.2 from rfl, show weights "reliability" = 0.1 from rfl,
      show weights "urgency" = 0.05 from rfl]
    rw [show ((1 : ℚ) * 0.4 + 0.8 * 0.25 + 1 * 0.2 + 0.98 * 0.1 +
        0.8 * 0.05) * 100 = 93.8 by norm_num]
    rw [round2_eq_self 93.8 9380 (by norm_num)]
  refine ⟨scenario_compatibility_raw, ?_, htotal, ?_⟩
  · rw [hcomp]; norm_num
  · rw [htotal]; norm_num

/-- Claim C2 (amended): in the §8 scenario the sub-scores are
compatibility 1.0 (stored 100 — the exact-match rule precedes the
universal-donor 0.95 rule), distance 0.8 (stored 80), availability 1.0
(≥ 0.8), urgency bonus 0.8 (stored 80), and the §4.3 weighted formula
gives total 100·(0.4·1 + 0.25·0.8 + 0.2·1 + 0.1·0.98 + 0.05·0.8) = 93.8,
which lies in the 90-95 range rather than 75-90. -/
theorem c2_scenario_amended :
    scenario_score.compatibility_score = 100 ∧
    scenario_score.distance_score = 80 ∧
    80 ≤ scenario_score.availability_score ∧
    scenario_score.urgency_bonus = 80 ∧
    scenario_score.total_score =
      round2 ((1 * 0.4 + 0.8 * 0.25 + 1 * 0.2 + 0.98 * 0.1 + 0.8 * 0.05) * 100) ∧
    scenario_score.total_score = 93.8 ∧
    90 ≤ scenario_score.total_score ∧ scenario_score.total_score ≤ 95 := by
  have hcomp : scenario_score.compatibility_score = 100 := by
    rw [scenario_score, calculate_donor_score_compatibility]
    rw [show scenario_donor.blood_group.getD "O+" = "O-" from rfl,
      show scenario_request.blood_group.getD "O+" = "O-" from rfl,
      scenario_compatibility_raw]
    rw [show ((1 : ℚ) * 100) = 100 by norm_num, round2_hundred]
  have hdist : scenario_score.distance_score = 80 := by
    rw [scenario_score, calculate_donor_score_distance, scenario_distance_raw]
    rw [show ((0.8 : ℚ) * 100) = 80 by norm_num, round2_eq_self 80 8000 (by norm_num)]
  have havail : scenario_score.availability_score = 100 := by
    rw [scenario_score, calculate_donor_score_availability, scenario_availability_raw]
    rw [show ((1 : ℚ) * 100) = 100 by norm_num, round2_hundred]
  have hurg : scenario_score.urgency_bonus = 80 := by
    rw [scenario_score, calculate_donor_score_urgency, scenario_urgency_raw]
    rw [show ((0.8 : ℚ) * 100) = 80 by norm_num, round2_eq_self 80 8000 (by norm_num)]
  have htotal : scenario_score.total_score = 93.8 := by
    rw [scenario_score, calculate_donor_score_total]
    rw [show scenario_donor.blood_group.getD "O+" = "O-" from rfl,
      show scenario_request.blood_group.getD "O+" = "O-" from rfl,
      scenario_compatibility_raw, scenario_distance_raw,
      scenario_availability_raw, scenario_reliability_raw, scenario_urgency_raw]
    rw [show weights "compatibility" = 0.4 from rfl, show weights "distance" = 0.25 from rfl,
      show weights "availability" = 0.2 from rfl, show weights "reliability" = 0.1 from rfl,
      show weights "urgency" = 0.05 from rfl]
    rw [show ((1 : ℚ) * 0.4 + 0.8 * 0.25 + 1 * 0.2 + 0.98 * 0.1 +
        0.8 * 0.05) * 100 = 93.8 by norm_num]
    rw [round2_eq_self 93.8 9380 (by norm_num)]
  refine ⟨hcomp, hdist, by rw [havail]; norm_num, hurg, ?_, htotal, ?_, ?_⟩
  · rw [htotal]
    rw [show ((1 * 0.4 + 0.8 * 0.25 + 1 * 0.2 + 0.98 * 0.1 + 0.8 * 0.05 : ℚ) * 100)
      = 93.8 by norm_num]
    rw [round2_eq_self 93.8 9380 (by norm_num)]
  · rw [htotal]; norm_num
  · rw [htotal]; norm_num

/-! ### Claim C10 -/

/-- Capping at 1 keeps a nonnegative value in the unit interval. -/
theorem min_one_mem_unit {x : ℚ} (hx : 0 ≤ x) : 0 ≤ min 1 x ∧ min 1 x ≤ 1 :=
  ⟨le_min (by norm_num) hx, min_le_left 1 x⟩

/-- Compatibility sub-score always lies in [0, 1]. -/
theorem compatibility_score_bounds (d p : String) :
    0 ≤ calculate_compatibility_score d p ∧ calculate_compatibility_score d p ≤ 1 := by
  unfold calculate_compatibility_score
  split_ifs <;> norm_num

/-- The in-radius distance formula lies in [0, 1] for nonnegative distance. -/
theorem distance_score_of_distance_bounds {d md : ℚ} (hd : 0 ≤ d) :
    0 ≤ distance_score_of_distance d md ∧ distance_score_of_distance d md ≤ 1 := by
  unfold distance_score_of_distance
  split_ifs with h
  · norm_num
  · constructor
    · exact le_trans (by norm_num) (le_max_left _ _)
    · apply max_le (by norm_num)
      have hmd : 0 ≤ md := le_trans hd (not_lt.mp h)
      have := div_nonneg hd hmd
      linarith

/-- Distance sub-score lies in [0, 1] whenever the distance function is
nonnegative (as the haversine is). -/
theorem distance_score_bounds (dist : ℚ → ℚ → ℚ → ℚ → ℚ)
    (hdist : ∀ a b c e : ℚ, 0 ≤ dist a b c e) (dl pl : Option GeoPoint) (md : ℚ) :
    0 ≤ calculate_distance_score dist dl pl md ∧ calculate_distance_score dist dl pl md ≤ 1 := by
  unfold calculate_distance_score
  cases dl with
  | none => norm_num
  | some a =>
    cases pl with
    | none => norm_num
    | some b =>
      dsimp only
      split_ifs with h
      · exact distance_score_of_distance_bounds (hdist _ _ _ _)
      · norm_num

/-- The post-eligibility availability tail lies in [0, 1] for nonnegative
base. -/
theorem availability_after_eligibility_bounds (donor : Donor) (nb : PyTime)
    {base : ℚ} (hb : 0 ≤ base) :
    0 ≤ availability_after_eligibility donor nb base ∧
      availability_after_eligibility donor nb base ≤ 1 := by
  unfold availability_after_eligibility
  cases nb <;> dsimp only <;> split_ifs <;> exact min_one_mem_unit (by linarith)

/-- Availability sub-score lies in [0, 1]. -/
theorem availability_score_bounds (donor : Donor) (nb : PyTime) :
    0 ≤ calculate_availability_score donor nb ∧ calculate_availability_score donor nb ≤ 1 := by
  have hbase : (0 : ℚ) ≤ 0.5 + (if donor.is_active then 0.2 else 0) := by
    split_ifs <;> norm_num
  unfold calculate_availability_score
  cases donor.last_donation_date with
  | missing => exact availability_after_eligibility_bounds donor nb (by linarith)
  | unparseable => exact availability_after_eligibility_bounds donor nb hbase
  | daysAgo n =>
    dsimp only
    split_ifs with h h2
    · exact availability_after_eligibility_bounds donor nb (by norm_num)
    · exact availability_after_eligibility_bounds donor nb (by norm_num)
    · norm_num

/-- Reliability sub-score lies in [0, 1] when the donor's response and
completion rates are in [0, 1]. -/
theorem reliability_score_bounds (donor : Donor)
    (h1 : 0 ≤ donor.response_rate) (h2 : donor.response_rate ≤ 1)
    (h3 : 0 ≤ donor.completion_rate) (h4 : donor.completion_rate ≤ 1) :
    0 ≤ calculate_reliability_score donor ∧ calculate_reliability_score donor ≤ 1 := by
  unfold calculate_reliability_score
  cases donor.last_active_date <;> dsimp only <;> split_ifs <;>
    exact min_one_mem_unit (by nlinarith)

/-- Urgency bonus lies in [0, 1]. -/
theorem urgency_bonus_bounds (donor : Donor) (u : String) (req : Request) :
    0 ≤ calculate_urgency_bonus donor u req ∧ calculate_urgency_bonus donor u req ≤ 1 := by
  unfold calculate_urgency_bonus
  split_ifs <;> norm_num <;> split_ifs <;> norm_num

/-- Claim C10: for every donor whose response and completion rates lie in
[0, 1], and any nonnegative distance function, each of the five raw
sub-scores computed during scoring lies in [0, 1], and the stored
`total_score` of the returned `DonorScore` lies in [0, 100]. -/
theorem donor_score_bounded (dist : ℚ → ℚ → ℚ → ℚ → ℚ)
    (donor : Donor) (req : Request) (u : String)
    (h1 : 0 ≤ donor.response_rate) (h2 : donor.response_rate ≤ 1)
    (h3 : 0 ≤ donor.completion_rate) (h4 : donor.completion_rate ≤ 1)
    (hdist : ∀ a b c e : ℚ, 0 ≤ dist a b c e) :
    (0 ≤ calculate_compatibility_score (donor.blood_group.getD "O+")
        (req.blood_group.getD "O+") ∧
      calculate_compatibility_score (donor.blood_group.getD "O+")
        (req.blood_group.getD "O+") ≤ 1) ∧
    (0 ≤ calculate_distance_score dist donor.location req.location req.max_distance_km ∧
      calculate_distance_score dist donor.location req.location req.max_distance_km ≤ 1) ∧
    (0 ≤ calculate_availability_score donor req.needed_by ∧
      calculate_availability_score donor req.needed_by ≤ 1) ∧
    (0 ≤ calculate_reliability_score donor ∧ calculate_reliability_score donor ≤ 1) ∧
    (0 ≤ calculate_urgency_bonus donor u req ∧ calculate_urgency_bonus donor u req ≤ 1) ∧
    (0 ≤ (calculate_donor_score dist donor req u).total_score ∧
      (calculate_donor_score dist donor req u).total_score ≤ 100) := by
  have hc := compatibility_score_bounds (donor.blood_group.getD "O+") (req.blood_group.getD "O+")
  have hdi := distance_score_bounds dist hdist donor.location req.location req.max_distance_km
  have ha := availability_score_bounds donor req.needed_by
  have hr := reliability_score_bounds donor h1 h2 h3 h4
  have hu := urgency_bonus_bounds donor u req
  refine ⟨hc, hdi, ha, hr, hu, ?_⟩
  rw [calculate_donor_score_total]
  rw [show weights "compatibility" = 0.4 from rfl, show weights "distance" = 0.25 from rfl,
    show weights "availability" = 0.2 from rfl, show weights "reliability" = 0.1 from rfl,
    show weights "urgency" = 0.05 from rfl]
  have hsum_lo : (0 : ℚ) ≤
      (calculate_compatibility_score (donor.blood_group.getD "O+")
          (req.blood_group.getD "O+") * 0.4 +
        calculate_distance_score dist donor.location req.location req.max_distance_km * 0.25 +
        calculate_availability_score donor req.needed_by * 0.2 +
        calculate_reliability_score donor * 0.1 +
        calculate_urgency_bonus donor u req * 0.05) * 100 := by
    nlinarith [hc.1, hdi.1, ha.1, hr.1, hu.1]
  have hsum_hi :
      (calculate_compatibility_score (donor.blood_group.getD "O+")
          (req.blood_group.getD "O+") * 0.4 +
        calculate_distance_score dist donor.location req.location req.max_distance_km * 0.25 +
        calculate_availability_score donor req.needed_by * 0.2 +
        calculate_reliability_score donor * 0.1 +
        calculate_urgency_bonus donor u req * 0.05) * 100 ≤ 100 := by
    nlinarith [hc.2, hdi.2, ha.2, hr.2, hu.2]
  constructor
  · have := round2_mono hsum_lo
    rw [round2_zero] at this
    exact this
  · have := round2_mono hsum_hi
    rw [round2_hundred] at this
    exact this

/-- Witness for C10 at the concrete C2 scenario inputs. -/
theorem donor_score_bounded_witness :
    0 ≤ scenario_score.total_score ∧ scenario_score.total_score ≤ 100 :=
  (donor_score_bounded dist_two scenario_donor scenario_request "critical"
    (by norm_num [scenario_donor]) (by norm_num [scenario_donor])
    (by norm_num [scenario_donor]) (by norm_num [scenario_donor])
    (fun a b c e => by norm_num [dist_two])).2.2.2.2.2

/-! ### Claim C3 -/

/-- `reqLE` is transitive (priority comparison on naturals). -/
theorem reqLE_trans : ∀ a b c : Request, reqLE a b = true → reqLE b c = true →
    reqLE a c = true := by
  intro a b c hab hbc
  rw [reqLE, decide_eq_true_eq] at hab hbc ⊢
  exact le_trans hbc hab

/-- `reqLE` is total. -/
theorem reqLE_total : ∀ a b : Request, (reqLE a b || reqLE b a) = true := by
  intro a b
  rw [Bool.or_eq_true, reqLE, reqLE, decide_eq_true_eq, decide_eq_true_eq]
  exact Nat.le_total _ _

/-- The sorted request list is a permutation of the input. -/
theorem sorted_requests_perm (requests : List Request) :
    (sorted_requests requests).Perm requests :=
  List.mergeSort_perm requests reqLE

/-- The sorted request list is in non-increasing urgency priority order. -/
theorem sorted_requests_pairwise (requests : List Request) :
    List.Pairwise (fun a b => get_urgency_priority b.urgency_level ≤
      get_urgency_priority a.urgency_level) (sorted_requests requests) :=
  (List.sorted_mergeSort reqLE_trans reqLE_total requests).imp
    (fun h => of_decide_eq_true h)

/-- A filter whose kept elements are pairwise related is `Pairwise`. -/
theorem pairwise_filter_of_forall {α : Type} (p : α → Bool) (R : α → α → Prop)
    (h : ∀ a b, p a = true → p b = true → R a b) :
    ∀ l : List α, List.Pairwise R (l.filter p)
  | [] => List.Pairwise.nil
  | x :: xs => by
    rw [List.filter_cons]
    split_ifs with hx
    · exact List.Pairwise.cons (fun b hb => h x b hx (List.of_mem_filter hb))
        (pairwise_filter_of_forall p R h xs)
    · exact pairwise_filter_of_forall p R h xs

/-- Stability of the urgency sort: requests of any single priority appear in
their original relative order (their filtered subsequence is unchanged). -/
theorem sorted_requests_stable (requests : List Request) (p : ℕ) :
    (sorted_requests requests).filter
        (fun r => decide (get_urgency_priority r.urgency_level = p)) =
      requests.filter (fun r => decide (get_urgency_priority r.urgency_level = p)) := by
  have hpair : List.Pairwise (fun a b => reqLE a b = true)
      (requests.filter (fun r => decide (get_urgency_priority r.urgency_level = p))) := by
    refine pairwise_filter_of_forall _ _ ?_ requests
    intro a b ha hb
    rw [decide_eq_true_eq] at ha hb
    rw [reqLE, decide_eq_true_eq, ha, hb]
  have hsub := List.sublist_mergeSort reqLE_trans reqLE_total hpair
    (List.filter_sublist requests)
  have hsub2 := hsub.filter (fun r => decide (get_urgency_priority r.urgency_level = p))
  rw [List.filter_filter] at hsub2
  simp only [Bool.and_self] at hsub2
  have hperm := (List.mergeSort_perm requests reqLE).filter
    (fun r => decide (get_urgency_priority r.urgency_level = p))
  exact ((hsub2.eq_of_length hperm.length_eq.symm)).symm

/-- One unfolding step of the batch loop. -/
theorem batch_trace_cons (dist : ℚ → ℚ → ℚ → ℚ → ℚ) (pool : List Donor)
    (r : Request) (rest : List Request) (used : List String) :
    batch_trace dist pool (r :: rest) used =
      (r, find_compatible_donors dist r
        (pool.filter (fun d => decide (d.id ∉ used))) 50 r.urgency_level) ::
      batch_trace dist pool rest (used ++ reserved_ids (r,
        find_compatible_donors dist r
          (pool.filter (fun d => decide (d.id ∉ used))) 50 r.urgency_level)) := rfl

/-- The batch loop yields one entry per request. -/
theorem batch_trace_length (dist : ℚ → ℚ → ℚ → ℚ → ℚ) (pool : List Donor) :
    ∀ (rs : List Request) (used : List String),
      (batch_trace dist pool rs used).length = rs.length
  | [], _ => rfl
  | r :: rest, used => by
    rw [batch_trace_cons, List.length_cons, List.length_cons,
      batch_trace_length dist pool rest _]

/-- Donor ids already marked used never reappear in any later match list:
every request scores only the pool filtered by the used set, which only
grows. -/
theorem batch_trace_fresh (dist : ℚ → ℚ → ℚ → ℚ → ℚ) (pool : List Donor)
    (rs : List Request) :
    ∀ (used : List String) (x : String), x ∈ used →
      ∀ (j : ℕ) (e : Request × List DonorScore),
        (batch_trace dist pool rs used).get? j = some e →
        ∀ s ∈ e.2, s.donor_id ≠ x := by
  induction rs with
  | nil =>
    intro used x hx j e he
    rw [show batch_trace dist pool [] used = [] from rfl] at he
    simp at he
  | cons r rest ih =>
    intro used x hx j e he s hs
    cases j with
    | zero =>
      rw [batch_trace_cons, List.get?_cons_zero, Option.some_inj] at he
      subst he
      have hs2 : s ∈ find_compatible_donors dist r
          (pool.filter (fun d => decide (d.id ∉ used))) 50 r.urgency_level := hs
      obtain ⟨-, -, d, hd, hsd⟩ := mem_find_compatible_donors hs2
      have hdid : ¬ d.id ∈ used := by
        have hd2 := (List.mem_filter.mp hd).2
        simp only [decide_eq_true_eq] at hd2
        exact hd2
      rw [hsd, calculate_donor_score_donor_id]
      intro hex
      exact hdid (hex ▸ hx)
    | succ j2 =>
      rw [batch_trace_cons, List.get?_cons_succ] at he
      exact ih _ x (List.mem_append_left _ hx) j2 e he s hs

/-- No match list of a later-processed request mentions a donor id reserved
by an earlier-processed request. -/
theorem batch_trace_no_reuse (dist : ℚ → ℚ → ℚ → ℚ → ℚ) (pool : List Donor)
    (rs : List Request) :
    ∀ (used : List String) (i j : ℕ) (ei ej : Request × List DonorScore),
      i < j →
      (batch_trace dist pool rs used).get? i = some ei →
      (batch_trace dist pool rs used).get? j = some ej →
      ∀ s ∈ ej.2, s.donor_id ∉ reserved_ids ei := by
  induction rs with
  | nil =>
    intro used i j ei ej hij hei
    rw [show batch_trace dist pool [] used = [] from rfl] at hei
    simp at hei
  | cons r rest ih =>
    intro used i j ei ej hij hei hej s hs hres
    cases j with
    | zero => exact absurd hij (Nat.not_lt_zero i)
    | succ j2 =>
      rw [batch_trace_cons, List.get?_cons_succ] at hej
      cases i with
      | zero =>
        rw [batch_trace_cons, List.get?_cons_zero, Option.some_inj] at hei
        subst hei
        exact batch_trace_fresh dist pool rest _ s.donor_id
          (List.mem_append_right _ hres) j2 ej hej s hs rfl
      | succ i2 =>
        rw [batch_trace_cons, List.get?_cons_succ] at hei
        exact ih _ i2 j2 ei ej (Nat.lt_of_succ_lt_succ hij) hei hej s hs hres

/-- Claim C3: `batch_match_requests` processes requests in non-increasing
urgency priority (critical 4 > high 3 > medium 2 > low 1), stably among
equal-urgency requests (their filtered subsequence is unchanged, and the
processed list is a permutation of the input); and no `DonorScore` in a
later-processed request's result list carries a donor id reserved by any
earlier-processed request, where a request reserves the ids of its top
`min(units_needed, matches found)` ranked matches. -/
theorem batch_match_priority_and_no_reuse (dist : ℚ → ℚ → ℚ → ℚ → ℚ)
    (requests : List Request) (pool : List Donor) :
    (sorted_requests requests).Perm requests ∧
    List.Pairwise (fun a b => get_urgency_priority b.urgency_level ≤
      get_urgency_priority a.urgency_level) (sorted_requests requests) ∧
    (∀ p : ℕ, (sorted_requests requests).filter
        (fun r => decide (get_urgency_priority r.urgency_level = p)) =
      requests.filter (fun r => decide (get_urgency_priority r.urgency_level = p))) ∧
    batch_match_requests dist requests pool =
      (batch_trace dist pool (sorted_requests requests) []).map (fun q => (q.1.id, q.2)) ∧
    (∀ (i j : ℕ)
      (hi : i < (batch_trace dist pool (sorted_requests requests) []).length)
      (hj : j < (batch_trace dist pool (sorted_requests requests) []).length), i < j →
      ∀ s ∈ ((batch_trace dist pool (sorted_requests requests) []).get ⟨j, hj⟩).2,
        s.donor_id ∉
          reserved_ids ((batch_trace dist pool (sorted_requests requests) []).get ⟨i, hi⟩)) :=
  ⟨sorted_requests_perm requests, sorted_requests_pairwise requests,
   sorted_requests_stable requests, rfl,
   fun i j hi hj hij s hs =>
     batch_trace_no_reuse dist pool (sorted_requests requests) [] i j
       ((batch_trace dist pool (sorted_requests requests) []).get ⟨i, hi⟩)
       ((batch_trace dist pool (sorted_requests requests) []).get ⟨j, hj⟩)
       hij (List.get?_eq_get hi) (List.get?_eq_get hj) s hs⟩

/-- Witness donor `a` for C3. -/
def donor_a : Donor :=
  { id := "a", blood_group := some "O-", location := none,
    response_rate := 0.5, completion_rate := 0.5 }

/-- Witness donor `b` for C3, identical to `a` except the id. -/
def donor_b : Donor :=
  { id := "b", blood_group := some "O-", location := none,
    response_rate := 0.5, completion_rate := 0.5 }

/-- Witness critical request for C3. -/
def req_critical : Request :=
  { id := "rc", blood_group := some "O-", location := none, urgency_level := "critical" }

/-- Witness low-urgency request for C3. -/
def req_low : Request :=
  { id := "rl", blood_group := some "O-", location := none, urgency_level := "low" }

/-- Score of donor `a` for the critical request. -/
def score_a_crit : DonorScore := calculate_donor_score dist_three donor_a req_critical "critical"

/-- Score of donor `b` for the critical request. -/
def score_b_crit : DonorScore := calculate_donor_score dist_three donor_b req_critical "critical"

/-- Score of donor `b` for the low request. -/
def score_b_low : DonorScore := calculate_donor_score dist_three donor_b req_low "low"

/-- Stored compatibility of the witness scores is 100. -/
theorem batch_witness_comp : score_a_crit.compatibility_score = 100 := by
  rw [score_a_crit, calculate_donor_score_compatibility]
  rw [show donor_a.blood_group.getD "O+" = "O-" from rfl,
    show req_critical.blood_group.getD "O+" = "O-" from rfl, scenario_compatibility_raw]
  rw [show ((1 : ℚ) * 100) = 100 by norm_num, round2_hundred]

/-- Stored distance of the witness scores is 50 (no locations). -/
theorem batch_witness_dist : score_a_crit.distance_score = 50 := by
  rw [score_a_crit, calculate_donor_score_distance]
  rw [show calculate_distance_score dist_three donor_a.location req_critical.location
    req_critical.max_distance_km = 0.5 from rfl]
  rw [show ((0.5 : ℚ) * 100) = 50 by norm_num, round2_eq_self 50 5000 (by norm_num)]

/-- The score-filter gate passes for the witness scores. -/
theorem batch_witness_gate_a :
    (decide (0 < score_a_crit.compatibility_score) &&
      decide (0 < score_a_crit.distance_score)) = true := by
  rw [Bool.and_eq_true, decide_eq_true_eq, decide_eq_true_eq,
    batch_witness_comp, batch_witness_dist]
  norm_num

/-- Gate for donor `b` against the critical request (equal to `a` by
definitional field equality). -/
theorem batch_witness_gate_b :
    (decide (0 < score_b_crit.compatibility_score) &&
      decide (0 < score_b_crit.distance_score)) = true := by
  rw [show score_b_crit.compatibility_score = score_a_crit.compatibility_score from rfl,
    show score_b_crit.distance_score = score_a_crit.distance_score from rfl]
  exact batch_witness_gate_a

/-- Gate for donor `b` against the low request. -/
theorem batch_witness_gate_b_low :
    (decide (0 < score_b_low.compatibility_score) &&
      decide (0 < score_b_low.distance_score)) = true := by
  rw [show score_b_low.compatibility_score = score_a_crit.compatibility_score from rfl,
    show score_b_low.distance_score = score_a_crit.distance_score from rfl]
  exact batch_witness_gate_a

/-- The critical request matches both donors, ranked stably. -/
theorem batch_witness_find_crit :
    find_compatible_donors dist_three req_critical [donor_a, donor_b] 50 "critical" =
      [score_a_crit, score_b_crit] := by
  unfold find_compatible_donors
  rw [show ([donor_a, donor_b].map
    (fun donor => calculate_donor_score dist_three donor req_critical "critical")) =
    [score_a_crit, score_b_crit] from rfl]
  rw [List.filter_cons, List.filter_cons, List.filter_nil]
  rw [batch_witness_gate_a, batch_witness_gate_b]
  show List.mergeSort [score_a_crit, score_b_crit] scoreLE = [score_a_crit, score_b_crit]
  refine List.mergeSort_of_sorted ?_
  refine List.Pairwise.cons ?_ (List.pairwise_singleton _ _)
  intro b hb
  rw [List.mem_singleton] at hb
  subst hb
  rw [scoreLE, show score_b_crit.total_score = score_a_crit.total_score from rfl]
  exact decide_eq_true (le_refl _)

/-- The low request, with donor `a` reserved, matches only donor `b`. -/
theorem batch_witness_find_low :
    find_compatible_donors dist_three req_low [donor_b] 50 "low" = [score_b_low] := by
  unfold find_compatible_donors
  rw [show ([donor_b].map
    (fun donor => calculate_donor_score dist_three donor req_low "low")) =
    [score_b_low] from rfl]
  rw [List.filter_cons, List.filter_nil]
  rw [batch_witness_gate_b_low]
  show List.mergeSort [score_b_low] scoreLE = [score_b_low]
  exact List.mergeSort_of_sorted (List.pairwise_singleton _ _)

/-- The witness request list is already sorted by urgency. -/
theorem batch_witness_sorted :
    sorted_requests [req_critical, req_low] = [req_critical, req_low] := by
  refine List.mergeSort_of_sorted ?_
  refine List.Pairwise.cons ?_ (List.pairwise_singleton _ _)
  intro b hb
  rw [List.mem_singleton] at hb
  subst hb
  rfl

/-- The full batch trace on the witness inputs: the critical request is
processed first and reserves donor `a`; the low request then matches only
donor `b`. -/
theorem batch_witness_trace :
    batch_trace dist_three [donor_a, donor_b] (sorted_requests [req_critical, req_low]) [] =
      [(req_critical, [score_a_crit, score_b_crit]), (req_low, [score_b_low])] := by
  rw [batch_witness_sorted]
  rw [batch_trace_cons]
  rw [show ([donor_a, donor_b].filter
    (fun d => decide (d.id ∉ ([] : List String)))) = [donor_a, donor_b] from rfl]
  rw [show req_critical.urgency_level = "critical" from rfl]
  rw [batch_witness_find_crit]
  rw [show (([] : List String) ++
    reserved_ids (req_critical, [score_a_crit, score_b_crit])) = ["a"] from rfl]
  rw [batch_trace_cons]
  rw [show ([donor_a, donor_b].filter
    (fun d => decide (d.id ∉ (["a"] : List String)))) = [donor_b] from rfl]
  rw [show req_low.urgency_level = "low" from rfl]
  rw [batch_witness_find_low]
  rfl

/-- Length of the witness trace. -/
theorem batch_witness_trace_length :
    (batch_trace dist_three [donor_a, donor_b]
      (sorted_requests [req_critical, req_low]) []).length = 2 := by
  rw [batch_witness_trace]
  rfl

/-- Witness for C3: on the concrete two-request, two-donor instance, the
low request's match (donor `b`) does not carry the donor id reserved by the
critical request (donor `a`). -/
theorem batch_match_priority_and_no_reuse_witness :
    score_b_low ∈ ((batch_trace dist_three [donor_a, donor_b]
        (sorted_requests [req_critical, req_low]) []).get
        ⟨1, by rw [batch_witness_trace_length]; norm_num⟩).2 ∧
    score_b_low.donor_id ∉ reserved_ids ((batch_trace dist_three [donor_a, donor_b]
        (sorted_requests [req_critical, req_low]) []).get
        ⟨0, by rw [batch_witness_trace_length]; norm_num⟩) := by
  have hb1 : (1 : ℕ) < (batch_trace dist_three [donor_a, donor_b]
      (sorted_requests [req_critical, req_low]) []).length := by
    rw [batch_witness_trace_length]; norm_num
  have h1 : ((batch_trace dist_three [donor_a, donor_b]
      (sorted_requests [req_critical, req_low]) []).get ⟨1, hb1⟩) =
      (req_low, [score_b_low]) := by
    have ha : (batch_trace dist_three [donor_a, donor_b]
        (sorted_requests [req_critical, req_low]) []).get? 1 =
        some (req_low, [score_b_low]) := by
      rw [batch_witness_trace]
      rfl
    have hg := List.get?_eq_get hb1
    rw [ha] at hg
    exact (Option.some_inj.mp hg).symm
  have hmem : score_b_low ∈ ((batch_trace dist_three [donor_a, donor_b]
      (sorted_requests [req_critical, req_low]) []).get ⟨1, hb1⟩).2 := by
    rw [h1]
    exact List.mem_singleton.mpr rfl
  exact ⟨hmem,
    (batch_match_priority_and_no_reuse dist_three [req_critical, req_low]
      [donor_a, donor_b]).2.2.2.2 0 1 _ _ (by norm_num) score_b_low hmem⟩

/-! ### Data validator (data_validator.py)

Raw scraped dicts are modelled by `Record`, a structure with one optional
field per key the three validators touch.  For numeric fields the outer
`Option` is key presence and the inner `Option` is parseability (`float(x)` /
`int(x)` raising is `some none`).  Leaf helpers that wrap Python library
machinery — the `re`-based cleaners, `str.title`, `datetime.fromisoformat`,
substring search, and `_find_closest_state` (whose partial-match loop
iterates a Python set in unspecified order) — are supplied as an oracle
environment `VEnv`; every branch decision of the validators themselves is
embedded from the source. -/

/-- A `last_updated` dict value: a string, a `datetime` object (carrying its
`isoformat()`), or some other type (Python hits the final `else`). -/
inductive TimeVal where
  | tstr (s : String)
  | tdatetime (iso : String)
  | tother
deriving DecidableEq

/-- A raw scraped dict, restricted to the keys the validators read. -/
structure Record where
  name : Option String := none
  address : Option String := none
  contact : Option String := none
  email : Option String := none
  state : Option String := none
  district : Option String := none
  latitude : Option (Option ℚ) := none
  longitude : Option (Option ℚ) := none
  blood_group : Option String := none
  units_available : Option (Option ℤ) := none
  blood_bank_name : Option String := none
  phone : Option String := none
  last_updated : Option TimeVal := none
  is_government : Option Bool := none
  validated_at : Option String := none
  validation_source : Option String := none
deriving DecidableEq

/-- Oracle environment for Python library leaves used by the validators. -/
structure VEnv where
  cleanText : String → String        -- _clean_text (re.sub + str.title)
  cleanAddress : String → String     -- _clean_address (re.sub + prefix strip)
  cleanPhone : String → String       -- _validate_and_clean_phone (re patterns)
  emailValid : String → Bool         -- email_pattern.match(email)
  parseISO : String → Bool           -- fromisoformat succeeds after Z-replacement
  closestState : String → Option String  -- _find_closest_state (set-order dependent)
  substr : String → String → Bool    -- Python `keyword in text`
  now : String                       -- datetime.now().isoformat()

/-- `ValidationResult` dataclass. -/
structure ValidationResult where
  is_valid : Bool
  errors : List String
  warnings : List String
  cleaned_data : Option Record := none
deriving DecidableEq

/-- `VALID_STATES` (Indian states and union territories, lowercase). -/
def VALID_STATES : List String :=
  ["andhra pradesh", "arunachal pradesh", "assam", "bihar", "chhattisgarh",
   "goa", "gujarat", "haryana", "himachal pradesh", "jharkhand", "karnataka",
   "kerala", "madhya pradesh", "maharashtra", "manipur", "meghalaya", "mizoram",
   "nagaland", "odisha", "punjab", "rajasthan", "sikkim", "tamil nadu",
   "telangana", "tripura", "uttar pradesh", "uttarakhand", "west bengal",
   "andaman and nicobar islands", "chandigarh",
   "dadra and nagar haveli and daman and diu",
   "delhi", "jammu and kashmir", "ladakh", "lakshadweep", "puducherry"]

/-- `VALID_BLOOD_GROUPS`. -/
def VALID_BLOOD_GROUPS : List String :=
  ["A+", "A-", "B+", "B-", "AB+", "AB-", "O+", "O-"]

/-- `GOVT_KEYWORDS`. -/
def GOVT_KEYWORDS : List String :=
  ["government", "govt", "district", "state", "central", "municipal",
   "corporation", "council", "public", "national", "regional"]

/-- `_fix_blood_group`: dictionary of common textual variations. -/
def fix_blood_group (blood_group : String) : Option String :=
  if blood_group = "" then none
  else
    List.lookup (blood_group.toUpper.trim)
      [("A POSITIVE", "A+"), ("A NEGATIVE", "A-"), ("B POSITIVE", "B+"),
       ("B NEGATIVE", "B-"), ("AB POSITIVE", "AB+"), ("AB NEGATIVE", "AB-"),
       ("O POSITIVE", "O+"), ("O NEGATIVE", "O-"), ("A POS", "A+"),
       ("A NEG", "A-"), ("B POS", "B+"), ("B NEG", "B-"), ("AB POS", "AB+"),
       ("AB NEG", "AB-"), ("O POS", "O+"), ("O NEG", "O-")]

/-- `_detect_government_institution`: any government keyword occurs in the
lowercased text. -/
def detect_government_institution (env : VEnv) (text : String) : Bool :=
  GOVT_KEYWORDS.any (fun kw => env.substr text.toLower kw)

/-- Field-by-field body of `validate_blood_bank_info`, producing
(errors, warnings, cleaned dict) in the source's append order. -/
def bank_core (env : VEnv) (blood_bank : Record) : List String × List String × Record :=
  let (e1, w1, c1) :=
    match blood_bank.name with
    | none => (["Blood bank name is missing or too short"], ([] : List String), blood_bank)
    | some n =>
        if n = "" ∨ n.trim.length < 3 then
          (["Blood bank name is missing or too short"], [], blood_bank)
        else
          let cleaned_name := env.cleanText n
          if cleaned_name ≠ n then
            ([], ["Blood bank name was cleaned"], { blood_bank with name := some cleaned_name })
          else ([], [], blood_bank)
  let (w2, c2) :=
    match c1.address with
    | none => (["Address is missing"], { c1 with address := some "" })
    | some a =>
        if a = "" then (["Address is missing"], { c1 with address := some "" })
        else
          let cleaned_address := env.cleanAddress a
          if cleaned_address ≠ a then
            (["Address was cleaned"], { c1 with address := some cleaned_address })
          else ([], c1)
  let contact := c2.contact.getD ""
  let cleaned_contact := env.cleanPhone contact
  let (w3, c3) :=
    if cleaned_contact ≠ contact then
      ((if cleaned_contact = "" then ["Contact number is invalid or missing"]
        else ["Contact number was cleaned"]),
       { c2 with contact := some cleaned_contact })
    else ([], c2)
  let email := c3.email.getD ""
  let (w4, c4) :=
    if email ≠ "" ∧ env.emailValid email = false then
      (["Email format is invalid"], { c3 with email := some "" })
    else ([], c3)
  let state := (c4.state.getD "").toLower.trim
  let (w5, c5) :=
    if state ≠ "" ∧ state ∉ VALID_STATES then
      match env.closestState state with
      | some closest => (["State was corrected"], { c4 with state := some closest })
      | none => (["State is not recognized"], c4)
    else ([], c4)
  let (e6, w6, c6) :=
    match c5.latitude with
    | none => (([] : List String), ([] : List String), c5)
    | some none => ([], ["Latitude is not a valid number"], { c5 with latitude := some none })
    | some (some lat) =>
        if ¬(-90 ≤ lat ∧ lat ≤ 90) then
          (["Latitude is out of valid range"], [], { c5 with latitude := some none })
        else ([], [], { c5 with latitude := some (some lat) })
  let (e7, w7, c7) :=
    match c6.longitude with
    | none => (([] : List String), ([] : List String), c6)
    | some none => ([], ["Longitude is not a valid number"], { c6 with longitude := some none })
    | some (some lon) =>
        if ¬(-180 ≤ lon ∧ lon ≤ 180) then
          (["Longitude is out of valid range"], [], { c6 with longitude := some none })
        else ([], [], { c6 with longitude := some (some lon) })
  let c8 := { c7 with is_government := some (detect_government_institution env
    ((blood_bank.name.getD "") ++ " " ++ (blood_bank.address.getD ""))) }
  (e1 ++ e6 ++ e7, w1 ++ w2 ++ w3 ++ w4 ++ w5 ++ w6 ++ w7, c8)

/-- `validate_blood_bank_info`: `is_valid = len(errors) == 0`, with
validation metadata stamped on the cleaned dict. -/
def validate_blood_bank_info (env : VEnv) (blood_bank : Record) : ValidationResult :=
  { is_valid := (bank_core env blood_bank).1.isEmpty
    errors := (bank_core env blood_bank).1
    warnings := (bank_core env blood_bank).2.1
    cleaned_data := some { (bank_core env blood_bank).2.2 with
      validated_at := some env.now,
      validation_source := some "eraktkosh_validator" } }

/-- Field-by-field body of `validate_blood_availability`. -/
def avail_core (env : VEnv) (availability : Record) : List String × List String × Record :=
  let blood_group := (availability.blood_group.getD "").trim.toUpper
  let (e1, w1, c1) :=
    if blood_group ∉ VALID_BLOOD_GROUPS then
      match fix_blood_group blood_group with
      | some fixed =>
          (([] : List String), ["Blood group was corrected"],
           { availability with blood_group := some fixed })
      | none => (["Invalid blood group"], [], availability)
    else ([], [], { availability with blood_group := some blood_group })
  let (w2, c2) :=
    match c1.units_available with
    | none =>
        (["Units available is missing, setting to 0"],
         { c1 with units_available := some (some 0) })
    | some none =>
        (["Units available is not a valid number, setting to 0"],
         { c1 with units_available := some (some 0) })
    | some (some units) =>
        if units < 0 then
          (["Units available is negative, setting to 0"],
           { c1 with units_available := some (some 0) })
        else if 1000 < units then
          (["Units available seems unusually high"],
           { c1 with units_available := some (some units) })
        else ([], { c1 with units_available := some (some units) })
  let bank_name := (c2.blood_bank_name.getD "").trim
  let (e3, c3) :=
    if bank_name = "" ∨ bank_name.length < 3 then
      (["Blood bank name is missing or too short"], c2)
    else ([], { c2 with blood_bank_name := some (env.cleanText bank_name) })
  let contact := c3.contact.getD ""
  let cleaned_contact := env.cleanPhone contact
  let c4 := { c3 with contact := some cleaned_contact }
  let w4 := if cleaned_contact = "" ∧ contact ≠ "" then ["Contact number is invalid"]
    else ([] : List String)
  let address := c4.address.getD ""
  let c5 := if address ≠ "" then { c4 with address := some (env.cleanAddress address) } else c4
  let state := (c5.state.getD "").toLower.trim
  let (w6, c6) :=
    if state ≠ "" ∧ state ∉ VALID_STATES then
      match env.closestState state with
      | some closest => (["State was corrected"], { c5 with state := some closest })
      | none => ([], c5)
    else ([], c5)
  let (w7, c7) :=
    match c6.last_updated with
    | some (TimeVal.tstr s) =>
        if env.parseISO s then (([] : List String), { c6 with last_updated := some (TimeVal.tstr s) })
        else (["Invalid last_updated format, using current time"],
          { c6 with last_updated := some (TimeVal.tstr env.now) })
    | some (TimeVal.tdatetime iso) => ([], { c6 with last_updated := some (TimeVal.tstr iso) })
    | some TimeVal.tother => ([], { c6 with last_updated := some (TimeVal.tstr env.now) })
    | none => ([], { c6 with last_updated := some (TimeVal.tstr env.now) })
  (e1 ++ e3, w1 ++ w2 ++ w4 ++ w6 ++ w7, c7)

/-- `validate_blood_availability`. -/
def validate_blood_availability (env : VEnv) (availability : Record) : ValidationResult :=
  { is_valid := (avail_core env availability).1.isEmpty
    errors := (avail_core env availability).1
    warnings := (avail_core env availability).2.1
    cleaned_data := some { (avail_core env availability).2.2 with
      validated_at := some env.now,
      validation_source := some "eraktkosh_validator" } }

/-- Field-by-field body of `validate_donor_data` (coordinate problems are
warnings here, not errors). -/
def donor_core (env : VEnv) (donor : Record) : List String × List String × Record :=
  let name := (donor.name.getD "").trim
  let (e1, c1) :=
    if name = "" ∨ name.length < 2 then (["Donor name is missing or too short"], donor)
    else (([] : List String), { donor with name := some (env.cleanText name) })
  let blood_group := (c1.blood_group.getD "").trim.toUpper
  let (w2, c2) :=
    if blood_group ≠ "" ∧ blood_group ∉ VALID_BLOOD_GROUPS then
      match fix_blood_group blood_group with
      | some fixed => (["Blood group was corrected"], { c1 with blood_group := some fixed })
      | none => (["Invalid blood group"], { c1 with blood_group := some "Unknown" })
    else if blood_group ≠ "" then (([] : List String), { c1 with blood_group := some blood_group })
    else ([], c1)
  let phone := c2.phone.getD ""
  let cleaned_phone := env.cleanPhone phone
  let c3 := { c2 with phone := some cleaned_phone }
  let w3 := if cleaned_phone = "" ∧ phone ≠ "" then ["Phone number is invalid"]
    else ([] : List String)
  let email := c3.email.getD ""
  let (w4, c4) :=
    if email ≠ "" ∧ env.emailValid email = false then
      (["Email format is invalid"], { c3 with email := some "" })
    else ([], c3)
  let address := c4.address.getD ""
  let c5 := if address ≠ "" then { c4 with address := some (env.cleanAddress address) } else c4
  let (w6, c6) :=
    match c5.latitude with
    | none => (([] : List String), c5)
    | some none => (["Invalid latitude"], { c5 with latitude := some none })
    | some (some lat) =>
        if -90 ≤ lat ∧ lat ≤ 90 then ([], { c5 with latitude := some (some lat) })
        else (["Latitude out of range"], { c5 with latitude := some none })
  let (w7, c7) :=
    match c6.longitude with
    | none => (([] : List String), c6)
    | some none => (["Invalid longitude"], { c6 with longitude := some none })
    | some (some lon) =>
        if -180 ≤ lon ∧ lon ≤ 180 then ([], { c6 with longitude := some (some lon) })
        else (["Longitude out of range"], { c6 with longitude := some none })
  (e1, w2 ++ w3 ++ w4 ++ w6 ++ w7, c7)

/-- `validate_donor_data`. -/
def validate_donor_data (env : VEnv) (donor : Record) : ValidationResult :=
  { is_valid := (donor_core env donor).1.isEmpty
    errors := (donor_core env donor).1
    warnings := (donor_core env donor).2.1
    cleaned_data := some { (donor_core env donor).2.2 with
      validated_at := some env.now,
      validation_source := some "eraktkosh_validator" } }

/-- The three supported `data_type` strings of `validate_batch`. -/
inductive DataKind where
  | blood_bank
  | blood_availability
  | donor_data
deriving DecidableEq

/-- Dispatch of `validate_batch` on `data_type`. -/
def validator_for (env : VEnv) : DataKind → Record → ValidationResult
  | DataKind.blood_bank => validate_blood_bank_info env
  | DataKind.blood_availability => validate_blood_availability env
  | DataKind.donor_data => validate_donor_data env

/-- One entry of the `invalid_items` bucket. -/
structure InvalidItem where
  original_data : Record
  errors : List String
  warnings : List String
deriving DecidableEq

/-- The `stats` dict of `validate_batch`. -/
structure BatchStats where
  total : ℕ
  valid : ℕ
  invalid : ℕ
  warnings : ℕ
  errors : ℕ
deriving DecidableEq

/-- The loop of `validate_batch`, processing every item in order; our
validators are total functions, so the per-item `except` branch of the
source (which buckets a throwing record as invalid) is unreachable in the
model. -/
def validate_batch_go (env : VEnv) (dk : DataKind) :
    List Record → List (Option Record) × List InvalidItem × BatchStats
  | [] => ([], [], ⟨0, 0, 0, 0, 0⟩)
  | item :: rest =>
      let result := validator_for env dk item
      let prev := validate_batch_go env dk rest
      if result.is_valid then
        (result.cleaned_data :: prev.1, prev.2.1,
         { prev.2.2 with
           valid := prev.2.2.valid + 1
           warnings := prev.2.2.warnings + result.warnings.length
           errors := prev.2.2.errors + result.errors.length })
      else
        (prev.1, ⟨item, result.errors, result.warnings⟩ :: prev.2.1,
         { prev.2.2 with
           invalid := prev.2.2.invalid + 1
           warnings := prev.2.2.warnings + result.warnings.length
           errors := prev.2.2.errors + result.errors.length })

/-- `validate_batch(data_list, data_type) -> (valid_items, invalid_items,
stats)`. -/
def validate_batch (env : VEnv) (data_list : List Record) (data_type : DataKind) :
    List (Option Record) × List InvalidItem × BatchStats :=
  let r := validate_batch_go env data_type data_list
  (r.1, r.2.1, { r.2.2 with total := data_list.length })

/-! ### Claim C8 -/

/-- Every validator sets `is_valid` to exactly "zero errors". -/
theorem validator_is_valid_iff (env : VEnv) (dk : DataKind) (r : Record) :
    (validator_for env dk r).is_valid = (validator_for env dk r).errors.isEmpty := by
  cases dk <;> rfl

/-- Splitting a list by a Boolean predicate preserves its length. -/
theorem length_filter_partition {α : Type} (p : α → Bool) :
    ∀ l : List α, (l.filter p).length + (l.filter (fun a => !(p a))).length = l.length
  | [] => rfl
  | x :: xs => by
    have ih := length_filter_partition p xs
    rw [List.filter_cons, List.filter_cons]
    cases hx : p x <;> simp [hx] <;> omega

/-- The `validate_batch` loop routes each record by `is_valid`: cleaned
records of error-free items in order, and an invalid entry (original data,
errors, warnings) for each item with errors. -/
theorem validate_batch_go_spec (env : VEnv) (dk : DataKind) :
    ∀ data_list : List Record,
    (validate_batch_go env dk data_list).1 =
      (data_list.filter (fun i => (validator_for env dk i).errors.isEmpty)).map
        (fun i => (validator_for env dk i).cleaned_data) ∧
    (validate_batch_go env dk data_list).2.1 =
      (data_list.filter (fun i => !(validator_for env dk i).errors.isEmpty)).map
        (fun i => ⟨i, (validator_for env dk i).errors, (validator_for env dk i).warnings⟩)
  | [] => ⟨rfl, rfl⟩
  | item :: rest => by
    obtain ⟨ih1, ih2⟩ := validate_batch_go_spec env dk rest
    have hiv := validator_is_valid_iff env dk item
    constructor
    · simp only [validate_batch_go, List.filter_cons]
      split_ifs with h1 h2 h2
      · rw [List.map_cons, ih1]
      · rw [h1] at hiv
        exact absurd hiv.symm h2
      · rw [h2] at hiv
        exact absurd hiv h1
      · exact ih1
    · simp only [validate_batch_go, List.filter_cons]
      split_ifs with h1 h2 h2
      · rw [h1] at hiv
        have h3 : (validator_for env dk item).errors.isEmpty = false := by
          revert h2
          cases (validator_for env dk item).errors.isEmpty <;> simp
        rw [h3] at hiv
        exact absurd hiv (by simp)
      · exact ih2
      · rw [List.map_cons, ih2]
      · have h3 : (validator_for env dk item).errors.isEmpty = true := by
          revert h2
          cases (validator_for env dk item).errors.isEmpty <;> simp
        rw [h3] at hiv
        exact absurd hiv h1

/-- Claim C8: for every batch and supported data type, a record lands in the
valid output list iff its validation produced zero errors (warnings alone
let the cleaned/corrected record through, since the valid bucket carries
`cleaned_data`); every record with at least one error lands in the invalid
bucket together with its recorded errors and warnings; and no record ever
halts the batch — the two buckets always partition the whole input. -/
theorem validate_batch_spec (env : VEnv) (dk : DataKind) (data_list : List Record) :
    (∀ r : Record, (validator_for env dk r).is_valid = (validator_for env dk r).errors.isEmpty) ∧
    (validate_batch env data_list dk).1 =
      (data_list.filter (fun i => (validator_for env dk i).errors.isEmpty)).map
        (fun i => (validator_for env dk i).cleaned_data) ∧
    (validate_batch env data_list dk).2.1 =
      (data_list.filter (fun i => !(validator_for env dk i).errors.isEmpty)).map
        (fun i => ⟨i, (validator_for env dk i).errors, (validator_for env dk i).warnings⟩) ∧
    (validate_batch env data_list dk).1.length +
      (validate_batch env data_list dk).2.1.length = data_list.length := by
  obtain ⟨h1, h2⟩ := validate_batch_go_spec env dk data_list
  have e1 : (validate_batch env data_list dk).1 = (validate_batch_go env dk data_list).1 := rfl
  have e2 : (validate_batch env data_list dk).2.1 =
    (validate_batch_go env dk data_list).2.1 := rfl
  refine ⟨fun r => validator_is_valid_iff env dk r, ?_, ?_, ?_⟩
  · rw [e1, h1]
  · rw [e2, h2]
  · rw [e1, h1, e2, h2, List.length_map, List.length_map]
    exact length_filter_partition _ data_list

/-! ### Backup refresh loop (backup_service.py 50-149 and 394-406) -/

/-- Environment of one `update_backup_data` cycle: the single-flight flag,
the cache-validity check, and the outcomes of the awaited steps (an
`Except.error` models the awaited call raising). -/
structure UpdateEnv where
  is_updating : Bool                                  -- self.is_updating at entry
  cache_valid : Bool                                  -- self._is_cache_valid()
  ensure_scraper : Except String Unit                 -- await self._ensure_scraper()
  scrape_availability : Except String (List Record)   -- await get_all_blood_availability()
  scrape_banks : Except String (List Record)          -- await get_all_blood_banks()
  venv : VEnv

/-- The two in-memory caches of `BackupDataService`. -/
structure BackupCaches where
  cached_availability : List (Option Record)
  cached_blood_banks : List (Option Record)

/-- `update_backup_data`: the entire body sits in an outer `try/except`
that catches every exception and returns `False`, so the outcome is always
`Except.ok`; each scrape step has its own inner `try/except` that logs and
continues, and on success the corresponding cache is replaced by the valid
bucket of `validate_batch`. -/
def update_backup_data (env : UpdateEnv) (force : Bool) (st : BackupCaches) :
    Except String (Bool × BackupCaches) :=
  if env.is_updating then Except.ok (false, st)
  else if !force && env.cache_valid then Except.ok (true, st)
  else
    match env.ensure_scraper with
    | Except.error _ => Except.ok (false, st)  -- outer except: log, return False
    | Except.ok _ =>
        let st1 :=
          match env.scrape_availability with
          | Except.error _ => st               -- inner except: log and continue
          | Except.ok raw =>
              { st with cached_availability :=
                  (validate_batch env.venv raw DataKind.blood_availability).1 }
        let st2 :=
          match env.scrape_banks with
          | Except.error _ => st1
          | Except.ok raw =>
              { st1 with cached_blood_banks :=
                  (validate_batch env.venv raw DataKind.blood_bank).1 }
        Except.ok (true, st2)

/-- The `while True` body of `start_backup_refresh_task`: the try-block
sleeps 2 hours after the awaited cycle returns; the except-branch sleeps 30
minutes when the awaited cycle raises. -/
def refresh_wait_seconds {α : Type} : Except String α → ℕ
  | Except.ok _ => 2 * 60 * 60
  | Except.error _ => 30 * 60

/-- Identity-ish oracle environment for concrete refresh runs. -/
def venv_triv : VEnv :=
  { cleanText := fun s => s, cleanAddress := fun s => s, cleanPhone := fun s => s,
    emailValid := fun _ => true, parseISO := fun _ => true,
    closestState := fun _ => none, substr := fun _ _ => false,
    now := "2026-10-12T00:00:00" }

/-- A refresh cycle in which both scrape steps raise. -/
def failing_cycle_env : UpdateEnv :=
  { is_updating := false, cache_valid := false, ensure_scraper := Except.ok (),
    scrape_availability := Except.error "scrape failed",
    scrape_banks := Except.error "scrape failed", venv := venv_triv }

/-- Empty caches. -/
def empty_caches : BackupCaches := { cached_availability := [], cached_blood_banks := [] }

/-- Counterexample to C7 as stated: a refresh cycle whose scrape steps both
raise still returns `Except.ok true` — `update_backup_data` swallows the
exceptions — so the loop takes the 2-hour wait, not the claimed 30-minute
fast-retry path. -/
theorem c7_failing_cycle_counterexample :
    update_backup_data failing_cycle_env false empty_caches =
      Except.ok (true, empty_caches) ∧
    refresh_wait_seconds (update_backup_data failing_cycle_env false empty_caches) =
      2 * 60 * 60 ∧
    refresh_wait_seconds (update_backup_data failing_cycle_env false empty_caches) ≠
      30 * 60 := by
  refine ⟨rfl, rfl, ?_⟩
  rw [show refresh_wait_seconds (update_backup_data failing_cycle_env false empty_caches)
    = 2 * 60 * 60 from rfl]
  decide

/-- Claim C7 (amended): the loop's except-branch does wait only 30 minutes,
but `update_backup_data` catches every exception internally and returns a
boolean instead of raising, so every refresh cycle — failed scrapes included
— is followed by the 2-hour wait; the 30-minute backoff fires only when the
awaited step itself raises, which `update_backup_data` never does. -/
theorem refresh_backoff_amended :
    (∀ (env : UpdateEnv) (force : Bool) (st : BackupCaches),
      refresh_wait_seconds (update_backup_data env force st) = 2 * 60 * 60) ∧
    (∀ e : String,
      refresh_wait_seconds (Except.error e : Except String (Bool × BackupCaches)) =
        30 * 60) := by
  constructor
  · intro env force st
    unfold update_backup_data
    split_ifs
    · rfl
    · rfl
    · cases env.ensure_scraper <;> rfl
  · intro e
    rfl
